import Mathlib

/- Verification of the fluidwall KinectController
   (src/fluidWall/KinectController.cpp and its header).
   Shallow embedding: the OpenNI / CLNUI device calls are an oracle giving a
   boolean status (true = XN_STATUS_OK) for each status-returning SDK call in
   program order, plus the raw frame visible at each wait call.  IEEE float
   arithmetic is modelled by exact rational arithmetic; narrowing of machine
   integers is explicit (mod 256). -/

namespace FluidWall

/-- COLOR_RANGE from KinectController.h. -/
def COLOR_RANGE : Nat := 255

/-- X_RES = XN_VGA_X_RES = 640. -/
def X_RES : Nat := 640

/-- Y_RES = XN_VGA_Y_RES = 480. -/
def Y_RES : Nat := 480

/-- One raw device frame: per-pixel depth (XnDepthPixel, unsigned) and
per-pixel user label (XnLabel, unsigned, 0 = no user), linearly indexed. -/
structure Frame where
  depth : Nat → Nat
  label : Nat → Nat

/-- Device oracle: status of the n-th status-returning SDK call made by the
controller (true = XN_STATUS_OK), and the frame delivered by the wait call
that is the n-th such call. -/
structure Env where
  status : Nat → Bool
  frame : Nat → Frame

/-- A cv Mat of type CV_8UC1: byte cells, data indexed linearly by y*cols+x. -/
structure Mat8 where
  rows : Nat
  cols : Nat
  data : Nat → Nat

/-- Mat.zeros(r,c,CV_8UC1). -/
def Mat8.zeros (r c : Nat) : Mat8 := ⟨r, c, fun _ => 0⟩

/-- Cell at row y, column x. -/
def Mat8.get (m : Mat8) (y x : Nat) : Nat := m.data (y * m.cols + x)

/-- cv flip with flipCode 1: horizontal mirror (left-right flip). -/
def hflip (m : Mat8) : Mat8 :=
  ⟨m.rows, m.cols, fun ind =>
    m.data ((ind / m.cols) * m.cols + (m.cols - 1 - ind % m.cols))⟩

/-- Truncation of a rational toward zero, as the C float-to-integer
conversion does. -/
def ratTrunc (q : Rat) : Int :=
  if q.num < 0 then -(((-q.num).toNat / q.den : Nat) : Int)
  else ((q.num.toNat / q.den : Nat) : Int)

/-- Conversion of a (possibly negative) scaled float to an unsigned 8-bit
cell: truncate toward zero, keep the low 8 bits (wraparound), which is the
narrowing behaviour the spec pins down for the assignment into a uchar. -/
def floatToU8 (q : Rat) : Nat := ((ratTrunc q) % 256).toNat

/-- The float quotient a/b, modelled exactly as the rational a/b (written
with Rat.divInt so that it is kernel-computable; the lemma fdiv_eq below
identifies it with division on Rat). -/
def fdiv (a b : Int) : Rat := Rat.divInt a b

/-- The float product of an unsigned sample d with a scale s, modelled
exactly (kernel-computable form; the lemma fscale_eq below identifies it
with multiplication on Rat). -/
def fscale (d : Nat) (s : Rat) : Rat := Rat.divInt ((d : Int) * s.num) (s.den : Int)

/-- KinectController.cpp line 139: the byte stored for an in-threshold
pixel, -(pDepthMap[ind] * colorByDepth) narrowed to uchar. -/
def depthPix (s : Rat) (d : Nat) : Nat := floatToU8 (-(fscale d s))

/-- The temporary matrix toflip_depthMatrix after the per-pixel loop of
update (KinectController.cpp lines 127-148): zero-created, the loop writes
indices below Y_RES*X_RES. -/
def preDepthMat (thresh : Int) (s : Rat) (f : Frame) : Mat8 :=
  ⟨Y_RES, X_RES, fun ind =>
    if ind < Y_RES * X_RES then
      if (f.depth ind : Int) < thresh then depthPix s (f.depth ind) else 0
    else 0⟩

/-- The temporary matrix toflip_usersMatrix after the per-pixel loop of
update: the raw user label narrowed to uchar for in-threshold pixels. -/
def preUsersMat (thresh : Int) (f : Frame) : Mat8 :=
  ⟨Y_RES, X_RES, fun ind =>
    if ind < Y_RES * X_RES then
      if (f.depth ind : Int) < thresh then f.label ind % 256 else 0
    else 0⟩

/-- State of a KinectController object (fields of the class in the header).
The field resets is a history variable counting executed reset() calls, and
tick counts consumed oracle calls; neither exists in the source, they only
observe the run. -/
structure KCState where
  maxUsers : Int
  maxIterate : Int
  iterations : Int
  depthThresh : Int
  colorByDepth : Rat
  depthMatrix : Mat8
  usersMatrix : Mat8
  initAngle : Int
  nuiAngle : Int
  xnRetVal : Bool
  tick : Nat
  resets : Nat

/-- One status-returning SDK call: xnRetVal receives the status of the
next oracle call. -/
def statusCall (env : Env) (st : KCState) : KCState :=
  { st with xnRetVal := env.status st.tick, tick := st.tick + 1 }

/-- KinectController::initDepthControl: Context.Init, DepthGenerator.Create,
SetMapOutputMode, UserGenerator.Create, StartGeneratingAll, each assigned to
xnRetVal and guarded by CHECK_RC (early return on a non-OK status).  The
calls whose status the source discards (RegisterUserCallbacks, GetMetaData,
GetUserPixels) have no observable effect and are not modelled. -/
def initDepthControl (env : Env) (st : KCState) : KCState :=
  let s1 := statusCall env st
  if s1.xnRetVal = false then s1 else
  let s2 := statusCall env s1
  if s2.xnRetVal = false then s2 else
  let s3 := statusCall env s2
  if s3.xnRetVal = false then s3 else
  let s4 := statusCall env s3
  if s4.xnRetVal = false then s4 else
  statusCall env s4

/-- KinectController::init (KinectController.cpp lines 41-51): recompute
colorByDepth = COLOR_RANGE/depthThresh as a float, zero the iteration
counter, allocate both 480x640 zero matrices, then run initDepthControl
(CHECK_RC then initMotorControl, which touches no modelled state). -/
def init (env : Env) (st : KCState) : KCState :=
  initDepthControl env
    { st with
      colorByDepth := fdiv (COLOR_RANGE : Int) st.depthThresh,
      iterations := 0,
      depthMatrix := Mat8.zeros 480 640,
      usersMatrix := Mat8.zeros 480 640 }

/-- Body of KinectController::update after the periodic-reset check
(KinectController.cpp lines 107-153): WaitOneUpdateAll assigned to xnRetVal
and checked (early return leaves counter and matrices untouched); on success
the per-pixel loop fills the two temporaries, both are flipped horizontally
into the member matrices, and the iteration counter is incremented.  The
GetUsers status is discarded by the source (its CHECK_RC re-tests the stale
OK value from the wait), so it cannot fail the update. -/
def updateBody (env : Env) (st : KCState) : KCState :=
  let f := env.frame st.tick
  let s1 := statusCall env st
  if s1.xnRetVal = false then s1 else
  { s1 with
    depthMatrix := hflip (preDepthMat s1.depthThresh s1.colorByDepth f),
    usersMatrix := hflip (preUsersMat s1.depthThresh f),
    iterations := s1.iterations + 1 }

/-- KinectController::update with fuel bounding the mutual recursion with
reset (the source recurses: update calls reset when iterations > maxIterate,
and reset calls update once more after re-initialising; with maxIterate >= 0
the recursion is at most one level deep, so any fuel >= 2 is exact). -/
def updateF : Nat → Env → KCState → KCState
  | 0, _, st => st
  | fuel+1, env, st =>
    updateBody env
      (if st.maxIterate < st.iterations then
        updateF fuel env (init env { st with iterations := 0, resets := st.resets + 1 })
      else st)

/-- KinectController::reset (KinectController.cpp lines 158-165): shutdown
(no modelled state), iterations = 0, init(), update(), return xnRetVal.
The statuses returned by init and update are not checked by reset itself;
reset returns whatever xnRetVal holds after the final update. -/
def resetF (fuel : Nat) (env : Env) (st : KCState) : KCState :=
  updateF fuel env (init env { st with iterations := 0, resets := st.resets + 1 })

/-- The clamping expression used by the constructor and setMotorAngle:
(a > 15000 ? 15000 : a < -15000 ? -15000 : a). -/
def clampAngle (a : Int) : Int :=
  if a > 15000 then 15000 else if a < -15000 then -15000 else a

/-- KinectController::KinectController (KinectController.cpp lines 30-38):
store the configuration, clamp the motor angle into both initAngle and
nuiAngle, then call init(). -/
def mkKinectController (env : Env) (userCount iterationCount depthValue motorAngle : Int) :
    KCState :=
  init env
    { maxUsers := userCount, maxIterate := iterationCount, iterations := 0,
      depthThresh := depthValue, colorByDepth := 0,
      depthMatrix := Mat8.zeros 0 0, usersMatrix := Mat8.zeros 0 0,
      initAngle := clampAngle motorAngle, nuiAngle := clampAngle motorAngle,
      xnRetVal := true, tick := 0, resets := 0 }

/-- KinectController::setDepth (header line 83): depthThresh += depthDelta,
and nothing else. -/
def setDepth (st : KCState) (depthDelta : Int) : KCState :=
  { st with depthThresh := st.depthThresh + depthDelta }

/-- KinectController::setMotorAngle (KinectController.cpp lines 185-190):
add the delta, clamp to [-15000, 15000], apply to the motor. -/
def setMotorAngle (st : KCState) (angle : Int) : KCState :=
  { st with nuiAngle := clampAngle (st.nuiAngle + angle) }

/-- KinectController::resetMotorAngle (lines 193-197): restore initAngle. -/
def resetMotorAngle (st : KCState) : KCState :=
  { st with nuiAngle := st.initAngle }

/-- A sequence of setMotorAngle calls. -/
def runAngles (st : KCState) (ds : List Int) : KCState :=
  ds.foldl setMotorAngle st

/-- The public operations of the controller, for invariants over call
sequences. -/
inductive Op where
  | updateOp : Op
  | resetOp : Op
  | setDepthOp : Int → Op
  | setMotorAngleOp : Int → Op
  | resetMotorAngleOp : Op

/-- Apply one public operation. -/
def applyOp (fuel : Nat) (env : Env) (st : KCState) : Op → KCState
  | .updateOp => updateF fuel env st
  | .resetOp => resetF fuel env st
  | .setDepthOp d => setDepth st d
  | .setMotorAngleOp d => setMotorAngle st d
  | .resetMotorAngleOp => resetMotorAngle st

/-- Apply a sequence of public operations. -/
def runOps (fuel : Nat) (env : Env) : KCState → List Op → KCState
  | st, [] => st
  | st, op :: ops => runOps fuel env (applyOp fuel env st op) ops

/-- Both member matrices have the fixed 480x640 dimensions. -/
def dimsOK (st : KCState) : Prop :=
  st.depthMatrix.rows = 480 ∧ st.depthMatrix.cols = 640 ∧
  st.usersMatrix.rows = 480 ∧ st.usersMatrix.cols = 640

/-- Concrete oracle: every device call succeeds, every frame reads depth
3000 with user label 2 at every pixel. -/
def envOK : Env :=
  { status := fun _ => true,
    frame := fun _ => { depth := fun _ => 3000, label := fun _ => 2 } }

/-- Controller built with maxIterate = 2 (the configuration of the reset
example in the spec), depth threshold 6000, motor angle 10000. -/
def st2 : KCState := mkKinectController envOK 6 2 6000 10000

/-- One update call against envOK (fuel 2 is exact for maxIterate >= 0). -/
def upd (st : KCState) : KCState := updateF 2 envOK st

/-- Controller with the default configuration of the header
(6 users, 10000 iterations, threshold 6000, angle 10000). -/
def stA : KCState := mkKinectController envOK 6 10000 6000 10000

/-- Oracle whose frames read depth 0 and user label 0 everywhere. -/
def envZero : Env :=
  { status := fun _ => true,
    frame := fun _ => { depth := fun _ => 0, label := fun _ => 0 } }

/-- Controller built against envZero. -/
def stZ : KCState := mkKinectController envZero 6 10000 6000 10000

/-- Oracle whose frames read depth 500 and user label 2 everywhere. -/
def env500 : Env :=
  { status := fun _ => true,
    frame := fun _ => { depth := fun _ => 500, label := fun _ => 2 } }

/-- Controller built against env500. -/
def stB : KCState := mkKinectController env500 6 10000 6000 10000

/-- Oracle whose frames read depth 7000 (beyond the 6000 threshold). -/
def envFar : Env :=
  { status := fun _ => true,
    frame := fun _ => { depth := fun _ => 7000, label := fun _ => 2 } }

/-- Controller built against envFar. -/
def stF : KCState := mkKinectController envFar 6 10000 6000 10000

/-- Oracle for the reset error path: device call number 5 (the Context.Init
performed by the re-initialisation inside reset, after the five successful
calls of construction) fails, every other call succeeds. -/
def env9 : Env :=
  { status := fun t => !(t == 5),
    frame := fun _ => { depth := fun _ => 3000, label := fun _ => 2 } }

/-- Controller built against env9 (construction itself succeeds). -/
def st9 : KCState := mkKinectController env9 6 10000 6000 10000

/-- stA after setDepth(-6000): stored depth threshold 0, reachable from the
public interface. -/
def stN : KCState := setDepth stA (-6000)

/-- The kernel-computable float quotient agrees with rational division. -/
theorem fdiv_eq (a b : Int) : fdiv a b = (a : Rat) / (b : Rat) := by
  rw [fdiv, Rat.divInt_eq_div]

/-- The kernel-computable float product agrees with rational
multiplication. -/
theorem fscale_eq (d : Nat) (s : Rat) : fscale d s = (d : Rat) * s := by
  rw [fscale, Rat.divInt_eq_div]
  push_cast
  rw [mul_div_assoc, Rat.num_div_den]

/-- The stored depth byte is the 8-bit narrowing of -(d * s). -/
theorem depthPix_eq (s : Rat) (d : Nat) :
    depthPix s d = floatToU8 (-((d : Rat) * s)) := by
  rw [depthPix, fscale_eq]

/-- initDepthControl changes only the status variable and the call
counter. -/
theorem initDepthControl_shape (env : Env) (st : KCState) :
    ∃ b t, initDepthControl env st = { st with xnRetVal := b, tick := t } := by
  simp only [initDepthControl, statusCall]
  split_ifs <;> exact ⟨_, _, rfl⟩

/-- init recomputes colorByDepth, zeroes the counter, reallocates both
zero matrices, and otherwise changes only the status variable and the call
counter. -/
theorem init_shape (env : Env) (st : KCState) :
    ∃ b t, init env st =
      { st with colorByDepth := fdiv (COLOR_RANGE : Int) st.depthThresh,
                iterations := 0,
                depthMatrix := Mat8.zeros 480 640,
                usersMatrix := Mat8.zeros 480 640,
                xnRetVal := b, tick := t } := by
  obtain ⟨b, t, h⟩ := initDepthControl_shape env
    { st with colorByDepth := fdiv (COLOR_RANGE : Int) st.depthThresh,
              iterations := 0,
              depthMatrix := Mat8.zeros 480 640,
              usersMatrix := Mat8.zeros 480 640 }
  exact ⟨b, t, by rw [init, h]⟩

/-- updateBody either fails at the wait (only the status variable and call
counter change) or succeeds (both matrices are overwritten with the flipped
temporaries and the counter is incremented). -/
theorem updateBody_shape (env : Env) (st : KCState) :
    (env.status st.tick = false ∧
      updateBody env st = { st with xnRetVal := false, tick := st.tick + 1 }) ∨
    (env.status st.tick = true ∧
      updateBody env st =
        { st with
          xnRetVal := true,
          tick := st.tick + 1,
          depthMatrix := hflip (preDepthMat st.depthThresh st.colorByDepth (env.frame st.tick)),
          usersMatrix := hflip (preUsersMat st.depthThresh (env.frame st.tick)),
          iterations := st.iterations + 1 }) := by
  cases h : env.status st.tick with
  | false =>
    left
    refine ⟨rfl, ?_⟩
    simp only [updateBody, statusCall, h]
    rfl
  | true =>
    right
    refine ⟨rfl, ?_⟩
    simp only [updateBody, statusCall, h]
    rfl

/-- update with fuel left: run reset when the counter exceeds the maximum,
then the acquisition-and-process body. -/
theorem updateF_succ (fuel : Nat) (env : Env) (st : KCState) :
    updateF (fuel+1) env st =
      updateBody env
        (if st.maxIterate < st.iterations then resetF fuel env st else st) := rfl

/-- The counter is zero immediately after init. -/
theorem init_iterations (env : Env) (st : KCState) : (init env st).iterations = 0 := by
  obtain ⟨b, t, h⟩ := init_shape env st
  rw [h]

/-- init does not change the depth threshold. -/
theorem init_depthThresh (env : Env) (st : KCState) :
    (init env st).depthThresh = st.depthThresh := by
  obtain ⟨b, t, h⟩ := init_shape env st
  rw [h]

/-- init does not touch the current motor angle. -/
theorem init_nuiAngle (env : Env) (st : KCState) :
    (init env st).nuiAngle = st.nuiAngle := by
  obtain ⟨b, t, h⟩ := init_shape env st
  rw [h]

/-- init does not touch the recorded initial motor angle. -/
theorem init_initAngle (env : Env) (st : KCState) :
    (init env st).initAngle = st.initAngle := by
  obtain ⟨b, t, h⟩ := init_shape env st
  rw [h]

/-- init does not change the configured maximum iteration count. -/
theorem init_maxIterate (env : Env) (st : KCState) :
    (init env st).maxIterate = st.maxIterate := by
  obtain ⟨b, t, h⟩ := init_shape env st
  rw [h]

/-- updateBody does not change the depth threshold. -/
theorem updateBody_depthThresh (env : Env) (st : KCState) :
    (updateBody env st).depthThresh = st.depthThresh := by
  rcases updateBody_shape env st with ⟨_, h⟩ | ⟨_, h⟩ <;> rw [h]

/-- update never changes the depth threshold, whatever fuel and whether a
reset runs. -/
theorem updateF_depthThresh (fuel : Nat) (env : Env) (st : KCState) :
    (updateF fuel env st).depthThresh = st.depthThresh := by
  induction fuel generalizing st with
  | zero => rfl
  | succ n ih =>
    rw [updateF_succ, updateBody_depthThresh]
    split
    · rw [resetF, ih, init_depthThresh]
    · rfl

/-- Cell y x of a horizontally flipped 640-column matrix is cell y (639-x)
of the original. -/
theorem hflip_get (m : Mat8) (y x : Nat) (hc : m.cols = 640) (hx : x < 640) :
    (hflip m).get y x = m.get y (639 - x) := by
  simp only [Mat8.get, hflip, hc]
  exact congrArg m.data (by omega)

/-- Cell y x of the pre-flip depth temporary, for in-range coordinates. -/
theorem preDepthMat_get (thresh : Int) (s : Rat) (f : Frame) (y x : Nat)
    (hx : x < 640) (hy : y < 480) :
    (preDepthMat thresh s f).get y x =
      if (f.depth (y * 640 + x) : Int) < thresh then depthPix s (f.depth (y * 640 + x))
      else 0 := by
  simp only [preDepthMat, Mat8.get, X_RES, Y_RES]
  rw [if_pos (by omega : y * 640 + x < 480 * 640)]

/-- Cell y x of the pre-flip users temporary, for in-range coordinates. -/
theorem preUsersMat_get (thresh : Int) (f : Frame) (y x : Nat)
    (hx : x < 640) (hy : y < 480) :
    (preUsersMat thresh f).get y x =
      if (f.depth (y * 640 + x) : Int) < thresh then f.label (y * 640 + x) % 256
      else 0 := by
  simp only [preUsersMat, Mat8.get, X_RES, Y_RES]
  rw [if_pos (by omega : y * 640 + x < 480 * 640)]

/-- With a non-positive threshold no unsigned sample passes the strict
comparison, so the depth temporary is all zero. -/
theorem preDepthMat_zero (thresh : Int) (s : Rat) (f : Frame) (ind : Nat)
    (ht : thresh ≤ 0) : (preDepthMat thresh s f).data ind = 0 := by
  simp only [preDepthMat]
  split
  · rw [if_neg (by omega)]
  · rfl

/-- With a non-positive threshold the users temporary is all zero. -/
theorem preUsersMat_zero (thresh : Int) (f : Frame) (ind : Nat)
    (ht : thresh ≤ 0) : (preUsersMat thresh f).data ind = 0 := by
  simp only [preUsersMat]
  split
  · rw [if_neg (by omega)]
  · rfl

/-- Flipping an everywhere-zero matrix gives an everywhere-zero matrix. -/
theorem hflip_zero (m : Mat8) (h : ∀ j, m.data j = 0) (ind : Nat) :
    (hflip m).data ind = 0 := h _

/-- init always produces the fixed 480x640 dimensions. -/
theorem init_dims (env : Env) (st : KCState) : dimsOK (init env st) := by
  obtain ⟨b, t, h⟩ := init_shape env st
  rw [dimsOK, h]
  exact ⟨rfl, rfl, rfl, rfl⟩

/-- updateBody preserves the fixed dimensions. -/
theorem updateBody_dims (env : Env) (st : KCState) (h : dimsOK st) :
    dimsOK (updateBody env st) := by
  rcases updateBody_shape env st with ⟨_, h2⟩ | ⟨_, h2⟩ <;> rw [dimsOK, h2]
  · exact h
  · exact ⟨rfl, rfl, rfl, rfl⟩

/-- update preserves the fixed dimensions, whether or not a reset runs. -/
theorem updateF_dims (fuel : Nat) (env : Env) (st : KCState) (h : dimsOK st) :
    dimsOK (updateF fuel env st) := by
  induction fuel generalizing st with
  | zero => exact h
  | succ n ih =>
    rw [updateF_succ]
    apply updateBody_dims
    split
    · rw [resetF]
      exact ih _ (init_dims env _)
    · exact h

/-- Every public operation preserves the fixed dimensions. -/
theorem applyOp_dims (fuel : Nat) (env : Env) (st : KCState) (op : Op) (h : dimsOK st) :
    dimsOK (applyOp fuel env st op) := by
  cases op with
  | updateOp => exact updateF_dims fuel env st h
  | resetOp =>
    rw [applyOp, resetF]
    exact updateF_dims fuel env _ (init_dims env _)
  | setDepthOp d => exact h
  | setMotorAngleOp d => exact h
  | resetMotorAngleOp => exact h

/-- Any sequence of public operations preserves the fixed dimensions. -/
theorem runOps_dims (fuel : Nat) (env : Env) (ops : List Op) (st : KCState) (h : dimsOK st) :
    dimsOK (runOps fuel env st ops) := by
  induction ops generalizing st with
  | nil => exact h
  | cons op ops ih => exact ih _ (applyOp_dims fuel env st op h)

/-- The clamp lands in [-15000, 15000]. -/
theorem clampAngle_mem (a : Int) : -15000 ≤ clampAngle a ∧ clampAngle a ≤ 15000 := by
  rw [clampAngle]
  split_ifs <;> omega

/-- The constructed current angle is the clamped argument. -/
theorem mk_nuiAngle (env : Env) (u i d m : Int) :
    (mkKinectController env u i d m).nuiAngle = clampAngle m := by
  rw [mkKinectController, init_nuiAngle]

/-- The constructed initial angle is the clamped argument. -/
theorem mk_initAngle (env : Env) (u i d m : Int) :
    (mkKinectController env u i d m).initAngle = clampAngle m := by
  rw [mkKinectController, init_initAngle]

/-- setMotorAngle does not touch the recorded initial angle. -/
theorem setMotorAngle_initAngle (st : KCState) (d : Int) :
    (setMotorAngle st d).initAngle = st.initAngle := rfl

/-- A sequence of setMotorAngle calls does not touch the recorded initial
angle. -/
theorem runAngles_initAngle (ds : List Int) (st : KCState) :
    (runAngles st ds).initAngle = st.initAngle := by
  induction ds generalizing st with
  | nil => rfl
  | cons d ds ih =>
    rw [runAngles, List.foldl_cons]
    exact ih (setMotorAngle st d)

/-- The current angle stays in [-15000, 15000] under any sequence of
setMotorAngle calls, provided it starts there. -/
theorem runAngles_mem (ds : List Int) (st : KCState)
    (h1 : -15000 ≤ st.nuiAngle) (h2 : st.nuiAngle ≤ 15000) :
    -15000 ≤ (runAngles st ds).nuiAngle ∧ (runAngles st ds).nuiAngle ≤ 15000 := by
  induction ds generalizing st with
  | nil => exact ⟨h1, h2⟩
  | cons d ds ih =>
    rw [runAngles, List.foldl_cons]
    exact ih (setMotorAngle st d) (clampAngle_mem _).1 (clampAngle_mem _).2

theorem init_depthMatrix (env : Env) (st : KCState) :
    (init env st).depthMatrix = Mat8.zeros 480 640 := by
  obtain ⟨b, t, h⟩ := init_shape env st
  rw [h]

theorem init_usersMatrix (env : Env) (st : KCState) :
    (init env st).usersMatrix = Mat8.zeros 480 640 := by
  obtain ⟨b, t, h⟩ := init_shape env st
  rw [h]

theorem update_success_mats (fuel : Nat) (env : Env) (st : KCState)
    (hnr : ¬ st.maxIterate < st.iterations) (hok : env.status st.tick = true) :
    (updateF (fuel+1) env st).depthMatrix =
      hflip (preDepthMat st.depthThresh st.colorByDepth (env.frame st.tick)) ∧
    (updateF (fuel+1) env st).usersMatrix =
      hflip (preUsersMat st.depthThresh (env.frame st.tick)) := by
  have hm : updateF (fuel+1) env st = updateBody env st := by
    rw [updateF_succ, if_neg hnr]
  rcases updateBody_shape env st with ⟨hs, h⟩ | ⟨hs, h⟩
  · rw [hs] at hok
    cases hok
  · rw [hm, h]
    exact ⟨rfl, rfl⟩

theorem update_mirror_get (fuel : Nat) (env : Env) (st : KCState) (x y : Nat)
    (hx : x < 640)
    (hnr : ¬ st.maxIterate < st.iterations) (hok : env.status st.tick = true) :
    (updateF (fuel+1) env st).depthMatrix.get y x =
      (preDepthMat st.depthThresh st.colorByDepth (env.frame st.tick)).get y (639 - x) ∧
    (updateF (fuel+1) env st).usersMatrix.get y x =
      (preUsersMat st.depthThresh (env.frame st.tick)).get y (639 - x) := by
  obtain ⟨hD, hU⟩ := update_success_mats fuel env st hnr hok
  rw [hD, hU, hflip_get _ _ _ rfl hx, hflip_get _ _ _ rfl hx]
  exact ⟨rfl, rfl⟩

theorem update_inside_values (fuel : Nat) (env : Env) (st : KCState) (x y : Nat)
    (hx : x < 640) (hy : y < 480)
    (hnr : ¬ st.maxIterate < st.iterations) (hok : env.status st.tick = true)
    (hin : ((env.frame st.tick).depth (y * 640 + x) : Int) < st.depthThresh) :
    (updateF (fuel+1) env st).depthMatrix.get y (639 - x) =
      depthPix st.colorByDepth ((env.frame st.tick).depth (y * 640 + x)) ∧
    (updateF (fuel+1) env st).usersMatrix.get y (639 - x) =
      (env.frame st.tick).label (y * 640 + x) % 256 := by
  obtain ⟨hD, hU⟩ := update_success_mats fuel env st hnr hok
  have hxm : 639 - x < 640 := by omega
  have hb : 639 - (639 - x) = x := by omega
  rw [hD, hU, hflip_get _ _ _ rfl hxm, hflip_get _ _ _ rfl hxm, hb,
    preDepthMat_get _ _ _ _ _ hx hy, preUsersMat_get _ _ _ _ hx hy,
    if_pos hin, if_pos hin]
  exact ⟨rfl, rfl⟩

theorem update_outside_zero (fuel : Nat) (env : Env) (st : KCState) (x y : Nat)
    (hx : x < 640) (hy : y < 480)
    (hnr : ¬ st.maxIterate < st.iterations) (hok : env.status st.tick = true)
    (hout : ¬ ((env.frame st.tick).depth (y * 640 + x) : Int) < st.depthThresh) :
    (updateF (fuel+1) env st).depthMatrix.get y (639 - x) = 0 ∧
    (updateF (fuel+1) env st).usersMatrix.get y (639 - x) = 0 := by
  obtain ⟨hD, hU⟩ := update_success_mats fuel env st hnr hok
  have hxm : 639 - x < 640 := by omega
  have hb : 639 - (639 - x) = x := by omega
  rw [hD, hU, hflip_get _ _ _ rfl hxm, hflip_get _ _ _ rfl hxm, hb,
    preDepthMat_get _ _ _ _ _ hx hy, preUsersMat_get _ _ _ _ hx hy,
    if_neg hout, if_neg hout]
  exact ⟨rfl, rfl⟩

theorem updateBody_zero_of_nonpos (env : Env) (st : KCState) (ind : Nat)
    (ht : st.depthThresh ≤ 0) (hok : (updateBody env st).xnRetVal = true) :
    (updateBody env st).depthMatrix.data ind = 0 ∧
    (updateBody env st).usersMatrix.data ind = 0 := by
  rcases updateBody_shape env st with ⟨hs, h⟩ | ⟨hs, h⟩
  · rw [h] at hok
    cases hok
  · rw [h]
    exact ⟨hflip_zero _ (fun j => preDepthMat_zero _ _ _ j ht) ind,
           hflip_zero _ (fun j => preUsersMat_zero _ _ j ht) ind⟩

end FluidWall

namespace FluidWall

/-- C1: for a successful update with no pending reset, every pixel (x, y)
with idx = y*640+x satisfies: if rawDepth[idx] < depthThresh then the final
depth buffer at row y, column 639-x is the 8-bit narrowing of
-(rawDepth[idx] * colorScale) with colorScale = 255/depthThresh as computed
at initialisation, and the final users buffer there is the raw user label
narrowed to 8 bits; otherwise both final buffers are zero at that mirrored
position; and the final buffers are the exact horizontal mirror of the
per-pixel-transformed temporaries, output[y][x] = preFlip[y][639-x]. -/
theorem c1_update_transforms_and_mirrors (fuel : Nat) (env : Env) (st : KCState)
    (x y : Nat) (hx : x < 640) (hy : y < 480)
    (hnr : ¬ st.maxIterate < st.iterations)
    (hok : env.status st.tick = true)
    (hcs : st.colorByDepth = (255 : Rat) / (st.depthThresh : Rat)) :
    (((env.frame st.tick).depth (y * 640 + x) : Int) < st.depthThresh →
      (updateF (fuel+1) env st).depthMatrix.get y (639 - x) =
        floatToU8 (-(((env.frame st.tick).depth (y * 640 + x) : Rat) *
          ((255 : Rat) / (st.depthThresh : Rat)))) ∧
      (updateF (fuel+1) env st).usersMatrix.get y (639 - x) =
        (env.frame st.tick).label (y * 640 + x) % 256) ∧
    (¬ ((env.frame st.tick).depth (y * 640 + x) : Int) < st.depthThresh →
      (updateF (fuel+1) env st).depthMatrix.get y (639 - x) = 0 ∧
      (updateF (fuel+1) env st).usersMatrix.get y (639 - x) = 0) ∧
    ((updateF (fuel+1) env st).depthMatrix.get y x =
      (preDepthMat st.depthThresh st.colorByDepth (env.frame st.tick)).get y (639 - x) ∧
      (updateF (fuel+1) env st).usersMatrix.get y x =
      (preUsersMat st.depthThresh (env.frame st.tick)).get y (639 - x)) := by
  refine ⟨fun hd => ?_, fun hd => update_outside_zero fuel env st x y hx hy hnr hok hd,
    update_mirror_get fuel env st x y hx hnr hok⟩
  obtain ⟨ha, hb⟩ := update_inside_values fuel env st x y hx hy hnr hok hd
  rw [depthPix_eq, hcs] at ha
  exact ⟨ha, hb⟩

/-- C1 witness: the default controller against the all-OK oracle with
constant depth 3000 and label 2, at pixel (0, 0). -/
theorem c1_update_transforms_and_mirrors_witness :
    ((0 : Nat) < 640 ∧ (0 : Nat) < 480 ∧ ¬ stA.maxIterate < stA.iterations ∧
      envOK.status stA.tick = true ∧
      stA.colorByDepth = (255 : Rat) / (stA.depthThresh : Rat)) ∧
    ((((envOK.frame stA.tick).depth (0 * 640 + 0) : Int) < stA.depthThresh →
      (updateF 1 envOK stA).depthMatrix.get 0 (639 - 0) =
        floatToU8 (-(((envOK.frame stA.tick).depth (0 * 640 + 0) : Rat) *
          ((255 : Rat) / (stA.depthThresh : Rat)))) ∧
      (updateF 1 envOK stA).usersMatrix.get 0 (639 - 0) =
        (envOK.frame stA.tick).label (0 * 640 + 0) % 256) ∧
    (¬ ((envOK.frame stA.tick).depth (0 * 640 + 0) : Int) < stA.depthThresh →
      (updateF 1 envOK stA).depthMatrix.get 0 (639 - 0) = 0 ∧
      (updateF 1 envOK stA).usersMatrix.get 0 (639 - 0) = 0) ∧
    ((updateF 1 envOK stA).depthMatrix.get 0 0 =
      (preDepthMat stA.depthThresh stA.colorByDepth (envOK.frame stA.tick)).get 0 (639 - 0) ∧
      (updateF 1 envOK stA).usersMatrix.get 0 0 =
      (preUsersMat stA.depthThresh (envOK.frame stA.tick)).get 0 (639 - 0))) := by
  have hcs : stA.colorByDepth = (255 : Rat) / (stA.depthThresh : Rat) := by
    have h1 : stA.colorByDepth = fdiv 255 6000 := by decide
    have h2 : stA.depthThresh = (6000 : Int) := by decide
    rw [h1, h2, fdiv_eq]
    norm_num
  exact ⟨⟨by decide, by decide, by decide, by decide, hcs⟩,
    c1_update_transforms_and_mirrors 0 envOK stA 0 0 (by decide) (by decide)
      (by decide) (by decide) hcs⟩

/-- C2 counterexample: with maxIterate = 2 and every device call
succeeding, after 3 update calls no reset has occurred and the iteration
counter is 3, not the claimed one reset with counter 1. -/
theorem c2_counterexample :
    (upd (upd (upd st2))).resets = 0 ∧ (upd (upd (upd st2))).iterations = 3 :=
  ⟨by decide, by decide⟩

/-- C2 amended: a reset is triggered on an update call exactly when the
counter strictly exceeds maxIterate at entry (so the first reset happens on
call maxIterate+2, not after maxIterate calls); with maxIterate = 2 and all
device calls succeeding, the first 3 calls perform no reset and leave the
counter at 3, the 4th call performs the single reset and ends with the
counter at 2, because reset re-initialises the counter to 0 and then both
the update run inside reset and the resumed outer cycle increment it; the
counter is 0 immediately after any (re)initialisation. -/
theorem c2_reset_schedule_amended :
    ((upd (upd (upd st2))).resets = 0 ∧ (upd (upd (upd st2))).iterations = 3) ∧
    ((upd (upd (upd (upd st2)))).resets = 1 ∧
      (upd (upd (upd (upd st2)))).iterations = 2) ∧
    (∀ fuel env st, updateF (fuel+1) env st =
        updateBody env
          (if st.maxIterate < st.iterations then resetF fuel env st else st)) ∧
    (∀ env st, (init env st).iterations = 0) :=
  ⟨⟨by decide, by decide⟩, ⟨by decide, by decide⟩,
    fun fuel env st => updateF_succ fuel env st,
    fun env st => init_iterations env st⟩

/-- C3: the stored tilt angle is always within [-15000, 15000]: the initial
angle recorded at construction is clamped into the range (constructing with
motorAngle = 20000 stores initial angle 15000), and after any sequence of
setMotorAngle calls with arbitrary integer deltas the stored current angle
remains within the range. -/
theorem c3_angle_always_clamped (env : Env) (u i d m : Int) (ds : List Int) :
    (-15000 ≤ (runAngles (mkKinectController env u i d m) ds).nuiAngle ∧
      (runAngles (mkKinectController env u i d m) ds).nuiAngle ≤ 15000) ∧
    (-15000 ≤ (mkKinectController env u i d m).initAngle ∧
      (mkKinectController env u i d m).initAngle ≤ 15000) ∧
    (mkKinectController env u i d 20000).initAngle = 15000 := by
  refine ⟨?_, ?_, ?_⟩
  · exact runAngles_mem ds _
      (by rw [mk_nuiAngle]; exact (clampAngle_mem m).1)
      (by rw [mk_nuiAngle]; exact (clampAngle_mem m).2)
  · rw [mk_initAngle]
    exact clampAngle_mem m
  · rw [mk_initAngle]
    decide

/-- C4 counterexample: a pixel strictly inside the threshold can leave both
final buffers zero at the mirrored coordinate: with raw depth 0 (< 6000)
and user label 0, after a successful update both buffers are zero at
(639-639, 0) = (0, 0), refuting the claimed non-zeroness. -/
theorem c4_counterexample :
    ((envZero.frame stZ.tick).depth (0 * 640 + 639) : Int) < stZ.depthThresh ∧
    (updateF 1 envZero stZ).xnRetVal = true ∧
    (updateF 1 envZero stZ).depthMatrix.get 0 0 = 0 ∧
    (updateF 1 envZero stZ).usersMatrix.get 0 0 = 0 :=
  ⟨by decide, by decide, by decide, by decide⟩

/-- C4 amended: for every pixel with rawDepth < threshold, a successful
update with no pending reset stores at the mirrored coordinate (639-x, y)
the transformed depth byte and the 8-bit user label, either of which may be
zero (for example raw depth 0, or no detected user); for every other pixel
both final buffers are zero at that mirrored coordinate. -/
theorem c4_mirrored_values_amended (fuel : Nat) (env : Env) (st : KCState)
    (x y : Nat) (hx : x < 640) (hy : y < 480)
    (hnr : ¬ st.maxIterate < st.iterations)
    (hok : env.status st.tick = true) :
    (((env.frame st.tick).depth (y * 640 + x) : Int) < st.depthThresh →
      (updateF (fuel+1) env st).depthMatrix.get y (639 - x) =
        depthPix st.colorByDepth ((env.frame st.tick).depth (y * 640 + x)) ∧
      (updateF (fuel+1) env st).usersMatrix.get y (639 - x) =
        (env.frame st.tick).label (y * 640 + x) % 256) ∧
    (¬ ((env.frame st.tick).depth (y * 640 + x) : Int) < st.depthThresh →
      (updateF (fuel+1) env st).depthMatrix.get y (639 - x) = 0 ∧
      (updateF (fuel+1) env st).usersMatrix.get y (639 - x) = 0) :=
  ⟨fun hd => update_inside_values fuel env st x y hx hy hnr hok hd,
    fun hd => update_outside_zero fuel env st x y hx hy hnr hok hd⟩

/-- C4 amended witness: the default controller against the all-OK oracle
with constant depth 3000 and label 2, at pixel (0, 0). -/
theorem c4_mirrored_values_amended_witness :
    ((0 : Nat) < 640 ∧ (0 : Nat) < 480 ∧ ¬ stA.maxIterate < stA.iterations ∧
      envOK.status stA.tick = true) ∧
    ((((envOK.frame stA.tick).depth (0 * 640 + 0) : Int) < stA.depthThresh →
      (updateF 1 envOK stA).depthMatrix.get 0 (639 - 0) =
        depthPix stA.colorByDepth ((envOK.frame stA.tick).depth (0 * 640 + 0)) ∧
      (updateF 1 envOK stA).usersMatrix.get 0 (639 - 0) =
        (envOK.frame stA.tick).label (0 * 640 + 0) % 256) ∧
    (¬ ((envOK.frame stA.tick).depth (0 * 640 + 0) : Int) < stA.depthThresh →
      (updateF 1 envOK stA).depthMatrix.get 0 (639 - 0) = 0 ∧
      (updateF 1 envOK stA).usersMatrix.get 0 (639 - 0) = 0)) :=
  ⟨⟨by decide, by decide, by decide, by decide⟩,
    c4_mirrored_values_amended 0 envOK stA 0 0 (by decide) (by decide)
      (by decide) (by decide)⟩

/-- C5 counterexample: the zero-outside-threshold invariant does not
survive setDepth: after a successful update at threshold 6000 on frames of
constant depth 500, setDepth(-5900) leaves threshold 100; the raw pixel
(500) is now outside the configured threshold, yet the depth buffer holds
the non-zero byte 235. -/
theorem c5_counterexample :
    ¬ (((env500.frame stB.tick).depth (0 * 640 + 639) : Int) <
        (setDepth (updateF 1 env500 stB) (-5900)).depthThresh) ∧
    (setDepth (updateF 1 env500 stB) (-5900)).depthMatrix.get 0 0 = 235 ∧
    (setDepth (updateF 1 env500 stB) (-5900)).depthMatrix.get 0 0 ≠ 0 :=
  ⟨by decide, by decide, by decide⟩

/-- C5 amended: the buffer dimensions are fixed at 480x640 from
construction on, across any sequence of update, reset, setDepth,
setMotorAngle and resetMotorAngle calls; immediately after construction
both buffers are entirely zero; and after a successful update with no
pending reset, every coordinate whose corresponding raw pixel was outside
the depth threshold in effect during that update holds zero in both
buffers (relative to that threshold, since setDepth can later change the
stored threshold without touching the buffers). -/
theorem c5_dims_and_zero_amended (fuel : Nat) (env : Env) (u i d m : Int)
    (ops : List Op) (st : KCState) (x y : Nat) (hx : x < 640) (hy : y < 480)
    (hnr : ¬ st.maxIterate < st.iterations)
    (hok : env.status st.tick = true)
    (hout : ¬ ((env.frame st.tick).depth (y * 640 + x) : Int) < st.depthThresh) :
    dimsOK (runOps fuel env (mkKinectController env u i d m) ops) ∧
    ((mkKinectController env u i d m).depthMatrix.data (y * 640 + x) = 0 ∧
      (mkKinectController env u i d m).usersMatrix.data (y * 640 + x) = 0) ∧
    ((updateF (fuel+1) env st).depthMatrix.get y (639 - x) = 0 ∧
      (updateF (fuel+1) env st).usersMatrix.get y (639 - x) = 0) := by
  refine ⟨runOps_dims fuel env ops _ (init_dims env _), ⟨?_, ?_⟩,
    update_outside_zero fuel env st x y hx hy hnr hok hout⟩
  · rw [mkKinectController, init_depthMatrix]
    rfl
  · rw [mkKinectController, init_usersMatrix]
    rfl

/-- C5 amended witness: the controller against the oracle of constant
depth 7000 (outside threshold 6000), the empty operation list, pixel
(0, 0). -/
theorem c5_dims_and_zero_amended_witness :
    ((0 : Nat) < 640 ∧ (0 : Nat) < 480 ∧ ¬ stF.maxIterate < stF.iterations ∧
      envFar.status stF.tick = true ∧
      ¬ ((envFar.frame stF.tick).depth (0 * 640 + 0) : Int) < stF.depthThresh) ∧
    (dimsOK (runOps 1 envFar (mkKinectController envFar 6 10000 6000 10000) []) ∧
    ((mkKinectController envFar 6 10000 6000 10000).depthMatrix.data (0 * 640 + 0) = 0 ∧
      (mkKinectController envFar 6 10000 6000 10000).usersMatrix.data (0 * 640 + 0) = 0) ∧
    ((updateF 1 envFar stF).depthMatrix.get 0 (639 - 0) = 0 ∧
      (updateF 1 envFar stF).usersMatrix.get 0 (639 - 0) = 0)) :=
  ⟨⟨by decide, by decide, by decide, by decide, by decide⟩,
    c5_dims_and_zero_amended 0 envFar 6 10000 6000 10000 [] stF 0 0
      (by decide) (by decide) (by decide) (by decide) (by decide)⟩

/-- C6 counterexample: a successful update call that triggers the periodic
reset does not increment the counter by exactly one: with maxIterate = 2
the 4th successful call is entered with counter 3 and ends with counter 2. -/
theorem c6_counterexample :
    (upd (upd (upd (upd st2)))).xnRetVal = true ∧
    (upd (upd (upd st2))).iterations = 3 ∧
    (upd (upd (upd (upd st2)))).iterations = 2 ∧
    (upd (upd (upd (upd st2)))).iterations ≠ (upd (upd (upd st2))).iterations + 1 :=
  ⟨by decide, by decide, by decide, by decide⟩

/-- C6 amended: on any update call that does not trigger a reset (counter
at most maxIterate at entry), a successful frame wait increments the
counter by exactly one, and a failed frame wait makes update return the
error status while the counter and both output buffers retain their prior
values. -/
theorem c6_counter_increment_amended (fuel : Nat) (env : Env) (st : KCState)
    (hnr : ¬ st.maxIterate < st.iterations) :
    (env.status st.tick = true →
      (updateF (fuel+1) env st).iterations = st.iterations + 1) ∧
    (env.status st.tick = false →
      (updateF (fuel+1) env st).xnRetVal = false ∧
      (updateF (fuel+1) env st).iterations = st.iterations ∧
      (updateF (fuel+1) env st).depthMatrix = st.depthMatrix ∧
      (updateF (fuel+1) env st).usersMatrix = st.usersMatrix) := by
  rw [updateF_succ, if_neg hnr]
  rcases updateBody_shape env st with ⟨hs, h⟩ | ⟨hs, h⟩
  · constructor
    · intro ht
      rw [hs] at ht
      cases ht
    · intro _
      rw [h]
      exact ⟨rfl, rfl, rfl, rfl⟩
  · constructor
    · intro _
      rw [h]
    · intro hf
      rw [hs] at hf
      cases hf

/-- C6 amended witness: the maxIterate = 2 controller right after
construction, against the all-OK oracle. -/
theorem c6_counter_increment_amended_witness :
    (¬ st2.maxIterate < st2.iterations) ∧
    ((envOK.status st2.tick = true →
      (updateF 2 envOK st2).iterations = st2.iterations + 1) ∧
    (envOK.status st2.tick = false →
      (updateF 2 envOK st2).xnRetVal = false ∧
      (updateF 2 envOK st2).iterations = st2.iterations ∧
      (updateF 2 envOK st2).depthMatrix = st2.depthMatrix ∧
      (updateF 2 envOK st2).usersMatrix = st2.usersMatrix)) :=
  ⟨by decide, c6_counter_increment_amended 1 envOK st2 (by decide)⟩

/-- C7: resetMotorAngle restores exactly the clamped initial angle recorded
at construction, regardless of any intervening sequence of setMotorAngle
calls with arbitrary deltas. -/
theorem c7_resetMotorAngle_restores (env : Env) (u i d m : Int) (ds : List Int) :
    (resetMotorAngle (runAngles (mkKinectController env u i d m) ds)).nuiAngle
      = clampAngle m ∧
    (resetMotorAngle (runAngles (mkKinectController env u i d m) ds)).nuiAngle
      = (mkKinectController env u i d m).initAngle := by
  have h : (resetMotorAngle (runAngles (mkKinectController env u i d m) ds)).nuiAngle
      = (runAngles (mkKinectController env u i d m) ds).initAngle := rfl
  constructor
  · rw [h, runAngles_initAngle, mk_initAngle]
  · rw [h, runAngles_initAngle]

/-- C8: setDepth adds the delta to the stored threshold but does not
recompute the cached colorByDepth: after setDepth(1000) on a controller
initialised with threshold 6000, the threshold is 7000 while colorByDepth
still equals 255/6000 and differs from 255/7000, contradicting the claimed
recomputation. -/
theorem c8_setDepth_stale_colorScale :
    (setDepth stA 1000).depthThresh = 7000 ∧
    (setDepth stA 1000).colorByDepth = (255 : Rat) / 6000 ∧
    (setDepth stA 1000).colorByDepth ≠
      (255 : Rat) / ((setDepth stA 1000).depthThresh : Rat) := by
  have h1 : (setDepth stA 1000).colorByDepth = fdiv 255 6000 := by decide
  have h2 : (setDepth stA 1000).depthThresh = (7000 : Int) := by decide
  refine ⟨by decide, ?_, ?_⟩
  · rw [h1, fdiv_eq]
    norm_num
  · rw [h1, h2, fdiv_eq]
    norm_num

/-- C9: the re-initialisation chain inside reset can fail while reset still
reports success: against the oracle whose device call number 5 (the
Context.Init of the re-initialisation) fails while the follow-up frame wait
succeeds, init reports a non-OK status but reset returns an OK status,
because the final update overwrites the shared status variable. -/
theorem c9_reset_swallows_failure :
    env9.status st9.tick = false ∧
    (init env9 st9).xnRetVal = false ∧
    (resetF 1 env9 st9).xnRetVal = true :=
  ⟨by decide, by decide, by decide⟩

/-- C10: with a stored depth threshold at most 0 (reachable through
setDepth), any successful update leaves both output buffers entirely zero:
depth samples are unsigned, so no pixel passes the strict comparison with a
non-positive threshold, whether or not the call also ran the periodic
reset; the scale factor is touched only inside (re)initialisation. -/
theorem c10_nonpositive_threshold_zero (fuel : Nat) (env : Env) (st : KCState)
    (ind : Nat) (ht : st.depthThresh ≤ 0)
    (hok : (updateF (fuel+1) env st).xnRetVal = true) :
    (updateF (fuel+1) env st).depthMatrix.data ind = 0 ∧
    (updateF (fuel+1) env st).usersMatrix.data ind = 0 := by
  by_cases hc : st.maxIterate < st.iterations
  · rw [updateF_succ, if_pos hc] at hok ⊢
    exact updateBody_zero_of_nonpos env _ ind
      (by rw [resetF, updateF_depthThresh, init_depthThresh]; exact ht) hok
  · rw [updateF_succ, if_neg hc] at hok ⊢
    exact updateBody_zero_of_nonpos env st ind ht hok

/-- C10 witness: the default controller after setDepth(-6000), leaving
threshold 0; the next update succeeds and both buffers are zero at cell 0. -/
theorem c10_nonpositive_threshold_zero_witness :
    stN.depthThresh ≤ 0 ∧ (updateF 1 envOK stN).xnRetVal = true ∧
    (updateF 1 envOK stN).depthMatrix.data 0 = 0 ∧
    (updateF 1 envOK stN).usersMatrix.data 0 = 0 := by
  refine ⟨by decide, by decide, ?_, ?_⟩
  · exact (c10_nonpositive_threshold_zero 0 envOK stN 0 (by decide) (by decide)).1
  · exact (c10_nonpositive_threshold_zero 0 envOK stN 0 (by decide) (by decide)).2

end FluidWall
